import Mathlib

/-!
Shallow embedding of `src/resources/recordResource.py` (Jiseti backend, the
`RecordResource` Flask-RESTful handler) and proofs about its behaviour.

Modelling conventions:
* SQLAlchemy rows become plain structures; the session/commit discipline is
  modelled by returning the committed `Store`: attribute assignments before a
  `commit()` are session-local and are visible only through the store returned
  on the commit path.
* Python `float` form fields become `Option Rat` (absent field = `none`);
  `0.0` is falsy in Python, mirrored by `pyTruthyFloat`.
* `datetime.now(timezone.utc)` is an abstract tick `now : Nat`;
  `isoformat()` rendering is abstracted to the tick value itself.
* A Cloudinary upload of a file is modelled by the `secure_url` the service
  would return for it, carried on the file; Flask file objects with an empty
  filename are falsy, modelled by the `truthy` flag.
* A handler that falls off the end of the function returns Python `None`,
  which flask-restful serialises as a 200 response with a `null` body
  (`Body.null` below).
-/

structure User where
  id : Int
  role : String
deriving Repr, DecidableEq

/-- The users table, as consulted by `is_admin` (`User.query.get`). -/
structure Env where
  users : List User
deriving Repr, DecidableEq

def User.query_get (env : Env) (user_id : Int) : Option User :=
  env.users.find? (fun u => u.id == user_id)

/-- `is_admin(user_id)` from recordResource.py lines 12-16. -/
def is_admin (env : Env) (user_id : Int) : Bool :=
  match User.query_get env user_id with
  | some user => user.role == "admin"
  | none => false

structure Record where
  id : Nat
  type : String
  title : String
  description : String
  latitude : Option Rat
  longitude : Option Rat
  images : List String
  status : String
  user_id : Int
  created_at : Option Nat
  updated_at : Option Nat
deriving Repr, DecidableEq

/-- The records table plus the id the store will assign to the next insert. -/
structure Store where
  records : List Record
  nextId : Nat
deriving Repr, DecidableEq

/-- `Record.query.get(record_id)`: primary-key lookup. -/
def Record.query_get (s : Store) (record_id : Nat) : Option Record :=
  s.records.find? (fun r => r.id == record_id)

/-- Committing a mutation of an existing row (matched by primary key). -/
def Store.update_record (s : Store) (new : Record) : Store :=
  { records := s.records.map (fun x => if x.id == new.id then new else x),
    nextId := s.nextId }

/-- `db.session.delete(record); db.session.commit()`: drop the row. -/
def Store.delete_record (s : Store) (record_id : Nat) : Store :=
  { records := s.records.filter (fun x => !(x.id == record_id)),
    nextId := s.nextId }

/-- An uploaded file part: its Python truthiness (empty-filename parts are
falsy and skipped) and the secure URL Cloudinary returns for it. -/
structure UploadFile where
  truthy : Bool
  secure_url : String
deriving Repr, DecidableEq

/-- The URL list produced by the upload loops (post lines 97-102, put
lines 172-178): upload each truthy file, collect URLs in order. -/
def upload_urls (files : List UploadFile) : List String :=
  (files.filter (fun f => f.truthy)).map (fun f => f.secure_url)

/-- The multipart form as read by post/put: `request.form.get` misses are
`none`, and `request.files.getlist('images')`. -/
structure RecordForm where
  type : Option String
  title : Option String
  description : Option String
  latitude : Option Rat
  longitude : Option Rat
  files : List UploadFile
deriving Repr, DecidableEq

/-- Python truthiness of an optional string (`None` and `''` are falsy). -/
def pyTruthyStr : Option String → Bool
  | none => false
  | some s => !(s == "")

/-- Python truthiness of an optional float (`None` and `0.0` are falsy). -/
def pyTruthyFloat : Option Rat → Bool
  | none => false
  | some x => !(x == 0)

/-- Python `str.lower()` (the code only compares against ASCII literals). -/
def pyLower (s : String) : String := String.mk (s.data.map Char.toLower)

/-- Python `str.capitalize()`: first character uppercased, rest lowercased. -/
def pyCapitalize (s : String) : String :=
  match s.data with
  | [] => String.mk []
  | c :: cs => String.mk (c.toUpper :: cs.map Char.toLower)

/-- `latitude is not None and not -90 <= latitude <= 90`. -/
def lat_out_of_range : Option Rat → Bool
  | some lat => decide (¬((-90 : Rat) ≤ lat ∧ lat ≤ 90))
  | none => false

/-- `longitude is not None and not -180 <= longitude <= 180`. -/
def lon_out_of_range : Option Rat → Bool
  | some lon => decide (¬((-180 : Rat) ≤ lon ∧ lon ≤ 180))
  | none => false

/-- `record.status in ['under investigation', 'rejected', 'resolved']`. -/
def locked_statuses : List String := ["under investigation", "rejected", "resolved"]

/-- put line 150: `record_type.capitalize() if record_type.lower() ==
"intervention" else "Red-Flag"`. -/
def normalize_type (t : String) : String :=
  if pyLower t == "intervention" then pyCapitalize t else "Red-Flag"

/-- The public projection of a record: a formatted timestamp is the tick,
`None` timestamps stay `none`; `record.images or ''` yields the string `''`
when the list is falsy (empty), otherwise the list. -/
structure FormattedRecord where
  id : Nat
  type : String
  title : String
  description : String
  latitude : Option Rat
  longitude : Option Rat
  images : Sum String (List String)
  status : String
  created_at : Option Nat
  updated_at : Option Nat
  user_id : Int
deriving Repr, DecidableEq

/-- `format_record` (recordResource.py lines 56-73). -/
def format_record (record : Record) : FormattedRecord :=
  { id := record.id
    type := record.type
    title := record.title
    description := record.description
    latitude := record.latitude
    longitude := record.longitude
    images := if record.images.isEmpty then Sum.inl "" else Sum.inr record.images
    status := record.status
    created_at := record.created_at
    updated_at := record.updated_at
    user_id := record.user_id }

/-- Response bodies the handlers can produce. -/
inductive Body where
  | message (text : String)
  | record (record : FormattedRecord)
  | messageRecord (text : String) (record : FormattedRecord)
  | records (records : List FormattedRecord)
  | null
deriving Repr, DecidableEq

structure Response where
  status : Nat
  body : Body
deriving Repr, DecidableEq

/-- `GET /records/<record_id>` (recordResource.py lines 33-41): 404 if absent,
403 if the caller is neither owner nor admin, else the formatted record
(flask-restful default status 200). -/
def RecordResource.get_one (env : Env) (s : Store) (user_id : Int)
    (record_id : Nat) : Response :=
  match Record.query_get s record_id with
  | none => ⟨404, Body.message "Record not found"⟩
  | some record =>
    if record.user_id != user_id && !(is_admin env user_id) then
      ⟨403, Body.message "Unauthorized access"⟩
    else
      ⟨200, Body.record (format_record record)⟩

/-- `GET /records` (recordResource.py lines 42-54). `page`/`per_page` are
parsed and then never used. The `return` statement sits inside the non-admin
branch, so for an admin the function assigns `records = Record.query.all()`
and then falls off the end, returning Python `None` (a 200 with null body). -/
def RecordResource.get_list (env : Env) (s : Store) (user_id : Int)
    (page_arg per_page_arg : Option Int) : Response :=
  let _page : Int := page_arg.getD 1
  let _per_page : Int := min (per_page_arg.getD 10) 100
  if is_admin env user_id then
    Response.mk 200 Body.null
  else
    Response.mk 200
      (Body.records ((s.records.filter (fun r => r.user_id == user_id)).map format_record))

/-- `POST /records` (recordResource.py lines 77-127), the exception-free
execution: validate type then ranges, upload files, insert the new row with
status `pending` and owner = caller, return 201. -/
def RecordResource.post (s : Store) (user_id : Int) (form : RecordForm)
    (now : Nat) : Response × Store :=
  let record_type := form.type
  let title := (form.title.getD "").trim
  let description := (form.description.getD "").trim
  if record_type != some "Red-Flag" && record_type != some "Intervention" then
    (⟨400, Body.message "Type must be Red-Flag or Intervention"⟩, s)
  else if lat_out_of_range form.latitude then
    (⟨400, Body.message "Invalid latitude"⟩, s)
  else if lon_out_of_range form.longitude then
    (⟨400, Body.message "Invalid longitude"⟩, s)
  else
    let record : Record :=
      { id := s.nextId
        type := record_type.getD ""
        title := title
        description := description
        latitude := form.latitude
        longitude := form.longitude
        images := upload_urls form.files
        status := "pending"
        user_id := user_id
        created_at := some now
        updated_at := some now }
    (⟨201, Body.messageRecord "Record created successfully" (format_record record)⟩,
     { records := s.records ++ [record], nextId := s.nextId + 1 })

/-- `PUT /records/<record_id>` (recordResource.py lines 132-191): 404 / 403
(ownership only, no admin check) / status-lock 400, then type validation and
normalisation, the all-fields-required truthiness check, range checks, image
replacement when any file part was sent, `updated_at` refresh, commit. -/
def RecordResource.put (s : Store) (user_id : Int) (record_id : Nat)
    (form : RecordForm) (now : Nat) : Response × Store :=
  match Record.query_get s record_id with
  | none => (⟨404, Body.message "Record not found"⟩, s)
  | some record =>
    if record.user_id != user_id then
      (⟨403, Body.message "Unauthorized to edit this record"⟩, s)
    else if locked_statuses.contains record.status then
      (⟨400, Body.message "Cannot edit record with current status"⟩, s)
    else
      let record_type := form.type
      let t := record_type.getD ""
      if pyTruthyStr record_type &&
          !(pyLower t == "red-flag" || pyLower t == "intervention") then
        (⟨400, Body.message "Invalid record type"⟩, s)
      else
        let new_type := if pyTruthyStr record_type then normalize_type t else record.type
        if !(pyTruthyStr record_type && pyTruthyStr form.title &&
             pyTruthyStr form.description && pyTruthyFloat form.latitude &&
             pyTruthyFloat form.longitude) then
          (⟨400, Body.message "All fields (type, title, description, latitude, longitude) are required"⟩, s)
        else
          let lat := form.latitude.getD 0
          let lon := form.longitude.getD 0
          if lat_out_of_range (some lat) then
            (⟨400, Body.message "Invalid latitude"⟩, s)
          else if lon_out_of_range (some lon) then
            (⟨400, Body.message "Invalid longitude"⟩, s)
          else
            let new_record : Record :=
              { record with
                type := new_type
                title := (form.title.getD "").trim
                description := (form.description.getD "").trim
                latitude := some lat
                longitude := some lon
                images := if form.files.isEmpty then record.images
                          else upload_urls form.files
                updated_at := some now }
            (⟨200, Body.messageRecord "Record updated successfully" (format_record new_record)⟩,
             Store.update_record s new_record)

/-- `DELETE /records/<record_id>` (recordResource.py lines 195-215): 404 /
403 (ownership only, no admin check) / status-lock 400, then delete the row. -/
def RecordResource.delete (s : Store) (user_id : Int) (record_id : Nat) :
    Response × Store :=
  match Record.query_get s record_id with
  | none => (⟨404, Body.message "Record not found"⟩, s)
  | some record =>
    if record.user_id != user_id then
      (⟨403, Body.message "Unauthorized to delete this record"⟩, s)
    else if locked_statuses.contains record.status then
      (⟨400, Body.message "Cannot delete record with current status"⟩, s)
    else
      (⟨200, Body.message "Record deleted successfully"⟩, Store.delete_record s record_id)

/-! ## Helper lemmas -/

theorem find?_update_record (l : List Record) (record_id : Nat) (r new : Record)
    (hfind : l.find? (fun x => x.id == record_id) = some r)
    (hid : new.id = r.id) :
    (l.map (fun x => if x.id == record_id then new else x)).find?
      (fun x => x.id == record_id) = some new := by
  induction l with
  | nil => simp at hfind
  | cons a as ih =>
    cases ha : (a.id == record_id) with
    | true =>
      have har : a = r := by simpa [List.find?, ha] using hfind
      have hnew : (new.id == record_id) = true := by
        rw [hid, ← har]; exact ha
      simp [List.find?, ha, hnew]
    | false =>
      have hfind2 : as.find? (fun x => x.id == record_id) = some r := by
        simpa [List.find?, ha] using hfind
      simpa [List.find?, ha] using ih hfind2

/-! ## Witness fixtures: a tiny concrete environment and store -/

def wRecord : Record :=
  { id := 1, type := "Red-Flag", title := "t", description := "d",
    latitude := some 5, longitude := some 6, images := ["old.jpg"],
    status := "pending", user_id := 7, created_at := some 0, updated_at := some 0 }

def wLocked : Record :=
  { wRecord with id := 2, status := "resolved" }

def wStore : Store := { records := [wRecord, wLocked], nextId := 3 }

def wEnv : Env := { users := [{ id := 9, role := "admin" }, { id := 7, role := "user" }] }

def wForm : RecordForm :=
  { type := some "Red-Flag", title := some "T", description := some "D",
    latitude := some 10, longitude := some 20,
    files := [{ truthy := true, secure_url := "new.jpg" }] }

/-! ## Claims -/

/-- C1: a create (POST) request that passes validation (type is one of the two
allowed values; latitude and longitude, when present, are in range) returns
201, and the returned record has status `pending` and `user_id` equal to the
authenticated caller's id. -/
theorem post_valid_created_pending_owner (s : Store) (user_id : Int)
    (form : RecordForm) (now : Nat)
    (htype : form.type = some "Red-Flag" ∨ form.type = some "Intervention")
    (hlat : lat_out_of_range form.latitude = false)
    (hlon : lon_out_of_range form.longitude = false) :
    (RecordResource.post s user_id form now).fst.status = 201 ∧
    ∃ fr : FormattedRecord,
      (RecordResource.post s user_id form now).fst.body =
        Body.messageRecord "Record created successfully" fr ∧
      fr.status = "pending" ∧ fr.user_id = user_id := by
  have ht : (form.type != some "Red-Flag" && form.type != some "Intervention") = false := by
    rcases htype with h | h <;> simp [h]
  simp only [RecordResource.post, ht, hlat, hlon, Bool.false_eq_true, if_false]
  constructor
  · simp
  · exact ⟨_, rfl, rfl, rfl⟩

theorem post_valid_created_pending_owner_witness :
    (RecordResource.post wStore 7 wForm 5).fst.status = 201 ∧
    ∃ fr : FormattedRecord,
      (RecordResource.post wStore 7 wForm 5).fst.body =
        Body.messageRecord "Record created successfully" fr ∧
      fr.status = "pending" ∧ fr.user_id = 7 :=
  post_valid_created_pending_owner wStore 7 wForm 5 (Or.inl rfl) (by decide) (by decide)

/-- C2: a PUT or DELETE on an existing record whose owner is not the caller
returns 403; the statement quantifies over every caller id, so in particular
no admin is exempted (neither handler consults the users table at all). -/
theorem put_delete_nonowner_forbidden (s : Store) (user_id : Int)
    (record_id : Nat) (form : RecordForm) (now : Nat) (r : Record)
    (hfind : Record.query_get s record_id = some r)
    (hown : r.user_id ≠ user_id) :
    (RecordResource.put s user_id record_id form now).fst.status = 403 ∧
    (RecordResource.delete s user_id record_id).fst.status = 403 := by
  have hb : (r.user_id != user_id) = true := by simp [hown]
  constructor
  · simp only [RecordResource.put, hfind, hb, if_true]
  · simp only [RecordResource.delete, hfind, hb, if_true]

theorem put_delete_nonowner_forbidden_witness :
    (RecordResource.put wStore 9 1 wForm 5).fst.status = 403 ∧
    (RecordResource.delete wStore 9 1).fst.status = 403 :=
  put_delete_nonowner_forbidden wStore 9 1 wForm 5 wRecord rfl (by decide)

/-- C3: for a GET of a single existing record, a caller that is neither the
owner nor an admin gets 403, and an admin caller gets the record with 200. -/
theorem get_one_access_control (env : Env) (s : Store) (user_id : Int)
    (record_id : Nat) (r : Record)
    (hfind : Record.query_get s record_id = some r) :
    (r.user_id ≠ user_id → is_admin env user_id = false →
      RecordResource.get_one env s user_id record_id =
        ⟨403, Body.message "Unauthorized access"⟩) ∧
    (is_admin env user_id = true →
      RecordResource.get_one env s user_id record_id =
        ⟨200, Body.record (format_record r)⟩) := by
  constructor
  · intro hown hadmin
    have hb : (r.user_id != user_id && !(is_admin env user_id)) = true := by
      simp [hown, hadmin]
    simp only [RecordResource.get_one, hfind, hb, if_true]
  · intro hadmin
    have hb : (r.user_id != user_id && !(is_admin env user_id)) = false := by
      simp [hadmin]
    simp only [RecordResource.get_one, hfind, hb, Bool.false_eq_true, if_false]

theorem get_one_access_control_witness :
    ((wRecord.user_id ≠ (8 : Int) → is_admin wEnv 8 = false →
      RecordResource.get_one wEnv wStore 8 1 =
        ⟨403, Body.message "Unauthorized access"⟩) ∧
    (is_admin wEnv 8 = true →
      RecordResource.get_one wEnv wStore 8 1 =
        ⟨200, Body.record (format_record wRecord)⟩)) ∧
    ((wRecord.user_id ≠ (9 : Int) → is_admin wEnv 9 = false →
      RecordResource.get_one wEnv wStore 9 1 =
        ⟨403, Body.message "Unauthorized access"⟩) ∧
    (is_admin wEnv 9 = true →
      RecordResource.get_one wEnv wStore 9 1 =
        ⟨200, Body.record (format_record wRecord)⟩)) :=
  ⟨get_one_access_control wEnv wStore 8 1 wRecord rfl,
   get_one_access_control wEnv wStore 9 1 wRecord rfl⟩

/-- C4: a PUT or DELETE by the owner of a record whose status is in
{under investigation, rejected, resolved} returns 400, and the store is
unchanged (the record is neither modified nor deleted). -/
theorem locked_status_put_delete_rejected (s : Store) (user_id : Int)
    (record_id : Nat) (form : RecordForm) (now : Nat) (r : Record)
    (hfind : Record.query_get s record_id = some r)
    (hown : r.user_id = user_id)
    (hlock : r.status ∈ locked_statuses) :
    (RecordResource.put s user_id record_id form now).fst.status = 400 ∧
    (RecordResource.put s user_id record_id form now).snd = s ∧
    (RecordResource.delete s user_id record_id).fst.status = 400 ∧
    (RecordResource.delete s user_id record_id).snd = s := by
  have hb : (r.user_id != user_id) = false := by simp [hown]
  have hc : locked_statuses.contains r.status = true := by
    simpa using hlock
  refine ⟨?_, ?_, ?_, ?_⟩ <;>
    simp only [RecordResource.put, RecordResource.delete, hfind, hb,
      Bool.false_eq_true, if_false, hc, if_true]

theorem locked_status_put_delete_rejected_witness :
    (RecordResource.put wStore 7 2 wForm 5).fst.status = 400 ∧
    (RecordResource.put wStore 7 2 wForm 5).snd = wStore ∧
    (RecordResource.delete wStore 7 2).fst.status = 400 ∧
    (RecordResource.delete wStore 7 2).snd = wStore :=
  locked_status_put_delete_rejected wStore 7 2 wForm 5 wLocked rfl rfl (by decide)

/-- If a range check on the put path failed to fire (h3, h4) while the
all-fields truthiness check passed (h2), the form cannot have supplied an
out-of-range coordinate. -/
theorem put_range_check_contradiction (form : RecordForm)
    (hrange : lat_out_of_range form.latitude = true ∨ lon_out_of_range form.longitude = true)
    (h2 : ¬(!(pyTruthyStr form.type && pyTruthyStr form.title &&
        pyTruthyStr form.description && pyTruthyFloat form.latitude &&
        pyTruthyFloat form.longitude)) = true)
    (h3 : ¬lat_out_of_range (some (form.latitude.getD 0)) = true)
    (h4 : ¬lon_out_of_range (some (form.longitude.getD 0)) = true) : False := by
  have htlat : pyTruthyFloat form.latitude = true := by
    by_contra hft
    rw [Bool.not_eq_true] at hft
    exact h2 (by simp [hft])
  have htlon : pyTruthyFloat form.longitude = true := by
    by_contra hft
    rw [Bool.not_eq_true] at hft
    exact h2 (by simp [hft])
  rcases hrange with h | h
  · cases hl : form.latitude with
    | none => rw [hl] at htlat; simp [pyTruthyFloat] at htlat
    | some lat =>
      rw [hl] at h
      exact h3 (by rw [hl]; simpa using h)
  · cases hl : form.longitude with
    | none => rw [hl] at htlon; simp [pyTruthyFloat] at htlon
    | some lon =>
      rw [hl] at h
      exact h4 (by rw [hl]; simpa using h)

/-- C5 counterexample: an update request supplying latitude 200 (outside
[-90,90]) against a record id that does not exist returns 404, not 400, so
the claim's unconditional "returns 400" fails for updates. -/
theorem put_out_of_range_missing_record_404 :
    (RecordResource.put wStore 7 99 { wForm with latitude := some 200 } 5).fst.status = 404 ∧
    ¬ (RecordResource.put wStore 7 99 { wForm with latitude := some 200 } 5).fst.status = 400 := by
  constructor <;> decide

/-- C5 (amended): a create request supplying an out-of-range latitude or
longitude returns 400 and creates nothing; an update request supplying one
returns 400 and modifies nothing provided the target record exists, the
caller owns it, and its status is not locked (otherwise the 404 / 403 /
status-lock 400 response precedes the range check). -/
theorem out_of_range_coordinates_rejected :
    (∀ (s : Store) (user_id : Int) (form : RecordForm) (now : Nat),
        (lat_out_of_range form.latitude = true ∨ lon_out_of_range form.longitude = true) →
        (RecordResource.post s user_id form now).fst.status = 400 ∧
        (RecordResource.post s user_id form now).snd = s) ∧
    (∀ (s : Store) (user_id : Int) (record_id : Nat) (form : RecordForm) (now : Nat)
        (r : Record),
        Record.query_get s record_id = some r →
        r.user_id = user_id →
        r.status ∉ locked_statuses →
        (lat_out_of_range form.latitude = true ∨ lon_out_of_range form.longitude = true) →
        (RecordResource.put s user_id record_id form now).fst.status = 400 ∧
        (RecordResource.put s user_id record_id form now).snd = s) := by
  constructor
  · intro s user_id form now hrange
    simp only [RecordResource.post]
    split_ifs with h1 h2 h3
    · exact ⟨rfl, rfl⟩
    · exact ⟨rfl, rfl⟩
    · exact ⟨rfl, rfl⟩
    · rcases hrange with h | h
      · exact absurd h h2
      · exact absurd h h3
  · intro s user_id record_id form now r hfind hown hunlocked hrange
    have hb : (r.user_id != user_id) = false := by simp [hown]
    have hc : locked_statuses.contains r.status = false := by
      simpa using hunlocked
    simp only [RecordResource.put, hfind, hb, hc, Bool.false_eq_true, if_false]
    split_ifs with h1 h2 h3 h4 <;> try exact ⟨rfl, rfl⟩
    all_goals exact (put_range_check_contradiction form hrange h2 h3 h4).elim

theorem out_of_range_coordinates_rejected_witness :
    ((RecordResource.post wStore 7 { wForm with latitude := some 200 } 5).fst.status = 400 ∧
     (RecordResource.post wStore 7 { wForm with latitude := some 200 } 5).snd = wStore) ∧
    ((RecordResource.put wStore 7 1 { wForm with longitude := some 300 } 5).fst.status = 400 ∧
     (RecordResource.put wStore 7 1 { wForm with longitude := some 300 } 5).snd = wStore) :=
  ⟨out_of_range_coordinates_rejected.1 wStore 7 { wForm with latitude := some 200 } 5
     (Or.inl (by decide)),
   out_of_range_coordinates_rejected.2 wStore 7 1 { wForm with longitude := some 300 } 5
     wRecord rfl rfl (by decide) (Or.inr (by decide))⟩

/-- C6: the list GET parses `page`/`per_page` and ignores them — but the
`return` statement is indented inside the non-admin branch, so an admin
caller gets Python `None` (a 200 with a null body, the dead
`records = Record.query.all()` assignment notwithstanding), while a
non-admin caller gets every record whose `user_id` is the caller's,
unfiltered by page and per_page. -/
theorem get_list_result (env : Env) (s : Store) (user_id : Int)
    (page_arg per_page_arg : Option Int) :
    RecordResource.get_list env s user_id page_arg per_page_arg =
      (if is_admin env user_id then Response.mk 200 Body.null
       else Response.mk 200 (Body.records
         ((s.records.filter (fun r => r.user_id == user_id)).map format_record))) := by
  simp only [RecordResource.get_list]


/-- Updating the row found for `record_id` makes the subsequent lookup return
the new row. -/
theorem query_get_update_record (s : Store) (record_id : Nat) (r new : Record)
    (hfind : Record.query_get s record_id = some r)
    (hid : new.id = r.id) :
    Record.query_get (Store.update_record s new) record_id = some new := by
  have hfind2 : s.records.find? (fun x => x.id == record_id) = some r := hfind
  have hr := List.find?_some hfind2
  have hrid : r.id = record_id := by simpa using hr
  show (s.records.map (fun x => if x.id == new.id then new else x)).find?
      (fun x => x.id == record_id) = some new
  rw [hid, hrid]
  exact find?_update_record s.records record_id r new hfind hid

/-- C9: a PUT on an existing record never changes the record's id, user_id,
status, or created_at fields, whether it fails or succeeds; only type, title,
description, latitude, longitude, images and updated_at are ever assigned. -/
theorem put_preserves_identity_fields (s : Store) (user_id : Int)
    (record_id : Nat) (form : RecordForm) (now : Nat) (r : Record)
    (hfind : Record.query_get s record_id = some r) :
    ∃ r2 : Record,
      Record.query_get (RecordResource.put s user_id record_id form now).snd record_id = some r2 ∧
      r2.id = r.id ∧ r2.user_id = r.user_id ∧ r2.status = r.status ∧
      r2.created_at = r.created_at := by
  simp only [RecordResource.put, hfind]
  split_ifs
  all_goals try exact ⟨r, hfind, rfl, rfl, rfl, rfl⟩
  all_goals exact ⟨_, query_get_update_record s record_id r _ hfind rfl, rfl, rfl, rfl, rfl⟩

theorem put_preserves_identity_fields_witness :
    ∃ r2 : Record,
      Record.query_get (RecordResource.put wStore 7 1 wForm 5).snd 1 = some r2 ∧
      r2.id = wRecord.id ∧ r2.user_id = wRecord.user_id ∧ r2.status = wRecord.status ∧
      r2.created_at = wRecord.created_at :=
  put_preserves_identity_fields wStore 7 1 wForm 5 wRecord rfl

/-- C10: a PUT by the owner of an unlocked record that supplies latitude 0.0
or longitude 0.0 — both inside the valid geographic ranges — together with
valid values for the other fields is rejected with 400 by the
all-fields-required check, which treats the falsy float 0.0 as missing, and
the store is unchanged. -/
theorem put_zero_coordinate_rejected (s : Store) (user_id : Int)
    (record_id : Nat) (form : RecordForm) (now : Nat) (r : Record)
    (hfind : Record.query_get s record_id = some r)
    (hown : r.user_id = user_id)
    (hunlocked : r.status ∉ locked_statuses)
    (htype : form.type = some "Red-Flag" ∨ form.type = some "Intervention")
    (htitle : pyTruthyStr form.title = true)
    (hdesc : pyTruthyStr form.description = true)
    (hlat_in : lat_out_of_range form.latitude = false)
    (hlon_in : lon_out_of_range form.longitude = false)
    (hzero : form.latitude = some 0 ∨ form.longitude = some 0) :
    (RecordResource.put s user_id record_id form now).fst =
      ⟨400, Body.message "All fields (type, title, description, latitude, longitude) are required"⟩ ∧
    (RecordResource.put s user_id record_id form now).snd = s := by
  have hb : (r.user_id != user_id) = false := by simp [hown]
  have hc : locked_statuses.contains r.status = false := by simpa using hunlocked
  have htv : (pyTruthyStr form.type &&
      !(pyLower (form.type.getD "") == "red-flag" ||
        pyLower (form.type.getD "") == "intervention")) = false := by
    rcases htype with h | h <;> rw [h] <;> decide
  have hall : (!(pyTruthyStr form.type && pyTruthyStr form.title &&
      pyTruthyStr form.description && pyTruthyFloat form.latitude &&
      pyTruthyFloat form.longitude)) = true := by
    rcases hzero with h | h <;> simp [h, pyTruthyFloat]
  simp only [RecordResource.put, hfind, hb, hc, htv, hall, Bool.false_eq_true,
    if_false, if_true]
  exact ⟨trivial, trivial⟩

theorem put_zero_coordinate_rejected_witness :
    (RecordResource.put wStore 7 1 { wForm with latitude := some 0 } 5).fst =
      ⟨400, Body.message "All fields (type, title, description, latitude, longitude) are required"⟩ ∧
    (RecordResource.put wStore 7 1 { wForm with latitude := some 0 } 5).snd = wStore :=
  put_zero_coordinate_rejected wStore 7 1 { wForm with latitude := some 0 } 5 wRecord
    rfl rfl (by decide) (Or.inl rfl) (by decide) (by decide) (by decide) (by decide)
    (Or.inl rfl)

/-- C7: a successful PUT that sent at least one image file part leaves the
record's images equal to exactly the URLs of the uploaded (truthy) files in
submission order; a previous image URL survives only if it is among the new
URLs (no union of old and new). -/
theorem put_success_replaces_images (s : Store) (user_id : Int)
    (record_id : Nat) (form : RecordForm) (now : Nat) (r : Record)
    (hfind : Record.query_get s record_id = some r)
    (hfiles : form.files ≠ [])
    (hsucc : (RecordResource.put s user_id record_id form now).fst.status = 200) :
    ∃ r2 : Record,
      Record.query_get (RecordResource.put s user_id record_id form now).snd record_id = some r2 ∧
      r2.images = upload_urls form.files ∧
      ∀ u ∈ r.images, u ∉ upload_urls form.files → u ∉ r2.images := by
  have hne : form.files.isEmpty = false := by
    cases hf : form.files with
    | nil => exact absurd hf hfiles
    | cons a as => rfl
  simp only [RecordResource.put, hfind, hne, Bool.false_eq_true, if_false] at hsucc ⊢
  split_ifs at hsucc ⊢
  all_goals try simp at hsucc
  all_goals refine ⟨_, query_get_update_record s record_id r _ hfind rfl, rfl, ?_⟩
  all_goals intro u hu hnot
  all_goals exact hnot

theorem put_success_replaces_images_witness :
    ∃ r2 : Record,
      Record.query_get (RecordResource.put wStore 7 1 wForm 5).snd 1 = some r2 ∧
      r2.images = upload_urls wForm.files ∧
      ∀ u ∈ wRecord.images, u ∉ upload_urls wForm.files → u ∉ r2.images :=
  put_success_replaces_images wStore 7 1 wForm 5 wRecord rfl (by decide) (by decide)

/-- `Char.ofNat` of a valid code point decodes back to that code point. -/
theorem char_toNat_ofNat (n : Nat) (h : n.isValidChar) : (Char.ofNat n).toNat = n := by
  rw [Char.ofNat, dif_pos h]
  rfl

/-- A character whose lowercase form is `i` uppercases to `I`. -/
theorem toUpper_eq_I_of_toLower_eq_i (c : Char) (h : c.toLower = 'i') :
    c.toUpper = 'I' := by
  by_cases hc : c.toNat ≥ 65 ∧ c.toNat ≤ 90
  · have h2 : Char.ofNat (c.toNat + 32) = 'i' := by
      rw [Char.toLower] at h
      simpa [hc] using h
    have hv : (c.toNat + 32).isValidChar := Or.inl (by omega)
    have h3 : c.toNat + 32 = 105 := by
      have h4 := congrArg Char.toNat h2
      rw [char_toNat_ofNat _ hv] at h4
      simpa using h4
    have h5 : c = 'I' := by
      apply Char.ext
      apply UInt32.toNat.inj
      have hI : Char.toNat 'I' = 73 := by decide
      show c.toNat = Char.toNat 'I'
      omega
    rw [h5]
    decide
  · have h6 : c = 'i' := by
      rw [Char.toLower] at h
      simpa [hc] using h
    rw [h6]
    decide

/-- A string whose `pyLower` is "intervention" is sent by `pyCapitalize` to
exactly "Intervention". -/
theorem pyCapitalize_intervention (t : String)
    (h : pyLower t = "intervention") : pyCapitalize t = "Intervention" := by
  obtain ⟨l⟩ := t
  have hdata : l.map Char.toLower = "intervention".data := congrArg String.data h
  have hx : "intervention".data = 'i' :: "ntervention".data := by decide
  rw [hx] at hdata
  cases l with
  | nil => simp at hdata
  | cons c cs =>
    rw [List.map_cons] at hdata
    injection hdata with h1 h2
    show String.mk (c.toUpper :: cs.map Char.toLower) = "Intervention"
    rw [toUpper_eq_I_of_toLower_eq_i c h1, h2]

/-- The put type normalisation can only output the two canonical spellings
when its input passed the case-insensitive validity check. -/
theorem normalize_type_valid (t : String)
    (hv : (pyLower t == "red-flag" || pyLower t == "intervention") = true) :
    normalize_type t = "Red-Flag" ∨ normalize_type t = "Intervention" := by
  unfold normalize_type
  cases hi : (pyLower t == "intervention") with
  | true =>
    right
    simp only [hi, if_true]
    exact pyCapitalize_intervention t (by simpa using hi)
  | false =>
    left
    simp [hi]

/-- C8: the record type is always one of Red-Flag and Intervention: a create
whose type field is not exactly one of those two strings is rejected with 400
and the store unchanged, and any successful update leaves the stored record
with type exactly "Red-Flag" or "Intervention" (case-insensitive input is
normalised to these two spellings). -/
theorem record_type_invariant :
    (∀ (s : Store) (user_id : Int) (form : RecordForm) (now : Nat),
        form.type ≠ some "Red-Flag" → form.type ≠ some "Intervention" →
        (RecordResource.post s user_id form now).fst.status = 400 ∧
        (RecordResource.post s user_id form now).snd = s) ∧
    (∀ (s : Store) (user_id : Int) (record_id : Nat) (form : RecordForm) (now : Nat),
        (RecordResource.put s user_id record_id form now).fst.status = 200 →
        ∃ r2 : Record,
          Record.query_get (RecordResource.put s user_id record_id form now).snd record_id = some r2 ∧
          (r2.type = "Red-Flag" ∨ r2.type = "Intervention")) := by
  constructor
  · intro s user_id form now h1 h2
    have ht : (form.type != some "Red-Flag" && form.type != some "Intervention") = true := by
      simp [h1, h2]
    simp only [RecordResource.post, ht, if_true]
    exact ⟨by trivial, by trivial⟩
  · intro s user_id record_id form now hsucc
    cases hfind : Record.query_get s record_id with
    | none => simp [RecordResource.put, hfind] at hsucc
    | some r =>
      simp only [RecordResource.put, hfind] at hsucc ⊢
      split_ifs at hsucc ⊢ with ho hlk hiv hall hlat hlon hty hempty
      all_goals try simp at hsucc
      all_goals try {
        exfalso
        rw [Bool.not_eq_true] at hty
        exact hall (by simp [hty])
      }
      all_goals {
        have hv : (pyLower (form.type.getD "") == "red-flag" ||
            pyLower (form.type.getD "") == "intervention") = true := by
          by_contra hvf
          rw [Bool.not_eq_true] at hvf
          exact hiv (by simp [hty, hvf])
        exact ⟨_, query_get_update_record s record_id r _ hfind rfl,
          normalize_type_valid _ hv⟩
      }

theorem record_type_invariant_witness :
    ((RecordResource.post wStore 7 { wForm with type := some "red-flag" } 5).fst.status = 400 ∧
     (RecordResource.post wStore 7 { wForm with type := some "red-flag" } 5).snd = wStore) ∧
    ∃ r2 : Record,
      Record.query_get
        (RecordResource.put wStore 7 1 { wForm with type := some "INTERVENTION" } 5).snd 1 = some r2 ∧
      (r2.type = "Red-Flag" ∨ r2.type = "Intervention") :=
  ⟨record_type_invariant.1 wStore 7 { wForm with type := some "red-flag" } 5
     (by decide) (by decide),
   record_type_invariant.2 wStore 7 1 { wForm with type := some "INTERVENTION" } 5
     (by decide)⟩
